import Mathlib

/-!
Verification development for the shelley Claude Code bridge.

The bridge (TypeScript, bridge/src) maps caller conversation ids to backend
session handles, routes chat requests to a Claude or Codex adapter, and
normalizes backend output into one wire response shape.  The Go client
(claudecode package) builds the wire request from a conversation history and
interprets the wire response.  This file is a shallow embedding of those
source files: timestamps are explicit Nat parameters standing for the
Date.now() calls, and each backend is an explicit oracle argument standing
for the external SDK.
-/

set_option autoImplicit false

namespace Shelley

/-- Entry of the session table, from bridge/src/types.ts SessionInfo:
a backend session id plus a last-activity timestamp (milliseconds). -/
structure SessionInfo where
  sessionId : String
  lastActivity : Nat
  deriving DecidableEq, Repr

/-- Idle timeout constant from bridge/src/session-manager.ts (30 minutes). -/
def IDLE_TIMEOUT_MS : Nat := 30 * 60 * 1000

/-- The session table, from bridge/src/session-manager.ts SessionManager.
The JS Map (unique keys, insertion order) is embedded as an ordered
association list. -/
structure SessionManager where
  sessions : List (String × SessionInfo)
  deriving DecidableEq, Repr

/-- Lookup of the entry stored under a key, modelling Map.get on the
association list.  Used to state properties of the table. -/
def findEntry (id : String) : List (String × SessionInfo) → Option SessionInfo
  | [] => none
  | (k, v) :: rest => if k = id then some v else findEntry id rest

/-- Single pass of SessionManager.get over the entries: returns the stored
session id of the first entry for the key (if any) and the entries with
that entry's lastActivity refreshed to now (the in-place JS mutation). -/
def getEntries : List (String × SessionInfo) → String → Nat → Option String × List (String × SessionInfo)
  | [], _, _ => (none, [])
  | (k, v) :: rest, id, now =>
    if k = id then
      (some v.sessionId, (k, { v with lastActivity := now }) :: rest)
    else
      let r := getEntries rest id now
      (r.1, (k, v) :: r.2)

/-- SessionManager.get (session-manager.ts lines 9-16): absent gives
undefined and no change; present refreshes lastActivity to now and returns
the stored session id. -/
def SessionManager.get (sm : SessionManager) (conversationId : String) (now : Nat) :
    Option String × SessionManager :=
  let r := getEntries sm.sessions conversationId now
  (r.1, ⟨r.2⟩)

/-- Map.set on the entry list: replace the entry for the key in place, or
append a new one at the end (JS Map insertion-order semantics). -/
def setEntries : List (String × SessionInfo) → String → SessionInfo → List (String × SessionInfo)
  | [], id, info => [(id, info)]
  | (k, v) :: rest, id, info =>
    if k = id then (k, info) :: rest else (k, v) :: setEntries rest id info

/-- SessionManager.set (session-manager.ts lines 18-23): create or
overwrite the entry, installing the given session id with activity now. -/
def SessionManager.set (sm : SessionManager) (conversationId sessionId : String) (now : Nat) :
    SessionManager :=
  ⟨setEntries sm.sessions conversationId ⟨sessionId, now⟩⟩

/-- Body of the cleanup loop of session-manager.ts (lines 33-43), with the
idle threshold as a parameter: entries with now - lastActivity > threshold
are removed (deleting while iterating a JS Map visits every entry once);
returns the removed count and the remaining entries. -/
def cleanupEntries (threshold now : Nat) : List (String × SessionInfo) → Nat × List (String × SessionInfo)
  | [] => (0, [])
  | e :: rest =>
    let r := cleanupEntries threshold now rest
    if now - e.2.lastActivity > threshold then (r.1 + 1, r.2) else (r.1, e :: r.2)

/-- SessionManager.cleanup: the sweep with the fixed IDLE_TIMEOUT_MS
threshold, as in the source. -/
def SessionManager.cleanup (sm : SessionManager) (now : Nat) : Nat × SessionManager :=
  let r := cleanupEntries IDLE_TIMEOUT_MS now sm.sessions
  (r.1, ⟨r.2⟩)

/-- Map.delete on the entry list: remove the entry for the key, reporting
whether one existed. -/
def deleteEntries : List (String × SessionInfo) → String → Bool × List (String × SessionInfo)
  | [], _ => (false, [])
  | (k, v) :: rest, id =>
    if k = id then (true, rest)
    else
      let r := deleteEntries rest id
      (r.1, (k, v) :: r.2)

/-- SessionManager.delete (session-manager.ts lines 25-27). -/
def SessionManager.delete (sm : SessionManager) (conversationId : String) :
    Bool × SessionManager :=
  let r := deleteEntries sm.sessions conversationId
  (r.1, ⟨r.2⟩)

/-- Wire usage figures of a bridge chat response (bridge/src/types.ts). -/
structure Usage where
  input_tokens : Nat
  output_tokens : Nat
  deriving DecidableEq, Repr

/-- Wire chat request of the bridge (bridge/src/types.ts ChatRequest).
Absent optional model is none; missing string fields arrive falsy and are
embedded as the empty string. -/
structure ChatRequest where
  conversation_id : String
  message : String
  working_dir : String
  model : Option String
  deriving DecidableEq, Repr

/-- Wire chat response of the bridge (bridge/src/types.ts ChatResponse).
The compacted key is optional on the wire: none when the responding code
path does not add it. -/
structure ChatResponse where
  result : String
  session_id : String
  usage : Usage
  is_error : Bool
  compacted : Option Bool
  deriving DecidableEq, Repr

/-- JS truthiness of a string-or-undefined value: undefined and the empty
string are falsy. -/
def optTruthy : Option String → Bool
  | some s => s ≠ ""
  | none => false

/-- JS string fallback a || b for two strings. -/
def jsOrStr (a b : String) : String := if a = "" then b else a

/-- JS fallback chain a || b || "" where b is string-or-undefined, as in
session_id computation of both adapters. -/
def jsOrOpt (a : String) (b : Option String) : String :=
  if a = "" then (match b with | some s => s | none => "") else a

/-- Tool allow-list of bridge/src/claude-adapter.ts. -/
def ALLOWED_TOOLS : List String :=
  [("Bash"), ("Read"), ("Write"), ("Edit"), ("Glob"), ("Grep"), ("WebFetch"), ("WebSearch")]

/-- Options record handed to the Claude Agent SDK query call
(claude-adapter.ts lines 34-45).  Note it has no model field at all:
the adapter never sets one. -/
structure QueryOptions where
  allowedTools : List String
  permissionMode : String
  cwd : Option String
  resume : Option String
  deriving DecidableEq, Repr

/-- One message of the Claude Agent SDK event stream, restricted to the
fields the adapter inspects (claude-adapter.ts lines 51-88).  Absent
fields are none. -/
structure SDKMessage where
  type : String
  subtype : Option String
  session_id : Option String
  result : Option String
  input_tokens : Option Nat
  output_tokens : Option Nat
  deriving DecidableEq, Repr

/-- Accumulator of the adapter's event-stream consumption loop: the local
variables of ClaudeAdapter.chat before the for-await loop. -/
structure ChatAcc where
  resultText : String
  sessionId : String
  inputTokens : Nat
  outputTokens : Nat
  compacted : Bool
  deriving DecidableEq, Repr

/-- Initial accumulator values (claude-adapter.ts lines 26-31). -/
def initAcc : ChatAcc :=
  { resultText := "", sessionId := "", inputTokens := 0, outputTokens := 0, compacted := false }

/-- One iteration of the for-await loop of ClaudeAdapter.chat
(claude-adapter.ts lines 51-88): capture session id from a truthy init
message, set the compaction flag on a compact_boundary message, take the
latest string result, and take the latest reported token counts. -/
def processMessage (acc : ChatAcc) (m : SDKMessage) : ChatAcc :=
  let a1 :=
    if m.type = ("system") ∧ m.subtype = some ("init") ∧ optTruthy m.session_id then
      { acc with sessionId := m.session_id.getD ("") }
    else acc
  let a2 :=
    if m.type = ("system") ∧ m.subtype = some ("compact_boundary") then
      { a1 with compacted := true }
    else a1
  let a3 :=
    match m.result with
    | some r => { a2 with resultText := r }
    | none => a2
  let a4 :=
    match m.input_tokens with
    | some n => { a3 with inputTokens := n }
    | none => a3
  match m.output_tokens with
  | some n => { a4 with outputTokens := n }
  | none => a4

/-- Construction of the query options (claude-adapter.ts lines 34-45):
fixed tool allow-list and permission mode, cwd only when working_dir is
truthy, resume only when the looked-up session id is truthy.  The
request's model field is not consulted (lines 47-49 of the source note
it must not be forwarded). -/
def mkQueryOptions (req : ChatRequest) (existingSessionId : Option String) : QueryOptions :=
  let base : QueryOptions :=
    { allowedTools := ALLOWED_TOOLS, permissionMode := ("bypassPermissions"),
      cwd := none, resume := none }
  let withCwd := if req.working_dir ≠ "" then { base with cwd := some req.working_dir } else base
  if optTruthy existingSessionId then { withCwd with resume := existingSessionId } else withCwd

/-- Outcome of one query call to the Claude Agent SDK: the stream messages
successfully yielded, then optionally a thrown error.  some (some m) is a
thrown Error with message m, some none a thrown non-Error value, none a
normally completed stream. -/
structure ClaudeOutcome where
  msgs : List SDKMessage
  thrown : Option (Option String)
  deriving DecidableEq, Repr

/-- The session handle looked up at the start of ClaudeAdapter.chat
(claude-adapter.ts line 24). -/
def ClaudeAdapter.lookupHandle (sm : SessionManager) (req : ChatRequest) (t1 : Nat) :
    Option String :=
  (SessionManager.get sm req.conversation_id t1).1

/-- The prompt and options passed to the Claude Agent SDK query call
(claude-adapter.ts lines 51-54). -/
def ClaudeAdapter.queryInvocation (sm : SessionManager) (req : ChatRequest) (t1 : Nat) :
    String × QueryOptions :=
  (req.message, mkQueryOptions req (ClaudeAdapter.lookupHandle sm req t1))

/-- ClaudeAdapter.chat (claude-adapter.ts lines 23-114).  The backend
oracle stands for the SDK query call, mapping the prompt and options to
the stream outcome; t1 and t2 are the Date.now() instants of the get and
set calls.  Returns the wire response and the updated session table. -/
def ClaudeAdapter.chat (sm : SessionManager) (req : ChatRequest)
    (backend : String → QueryOptions → ClaudeOutcome) (t1 t2 : Nat) :
    ChatResponse × SessionManager :=
  let existingSessionId := ClaudeAdapter.lookupHandle sm req t1
  let sm1 := (SessionManager.get sm req.conversation_id t1).2
  let out := backend (ClaudeAdapter.queryInvocation sm req t1).1 (ClaudeAdapter.queryInvocation sm req t1).2
  let acc := out.msgs.foldl processMessage initAcc
  match out.thrown with
  | some e =>
      ({ result := e.getD ("Unknown error from Claude Code"),
         session_id := jsOrOpt acc.sessionId existingSessionId,
         usage := ⟨acc.inputTokens, acc.outputTokens⟩,
         is_error := true,
         compacted := if acc.compacted then some true else none }, sm1)
  | none =>
      let sm2 :=
        if acc.sessionId ≠ "" then SessionManager.set sm1 req.conversation_id acc.sessionId t2
        else sm1
      ({ result := acc.resultText,
         session_id := jsOrOpt acc.sessionId existingSessionId,
         usage := ⟨acc.inputTokens, acc.outputTokens⟩,
         is_error := false,
         compacted := if acc.compacted then some true else none }, sm2)

/-- The Codex SDK call made by CodexAdapter.chat: resume an existing
thread or start a new one in a working directory
(codex-adapter.ts lines 238-242). -/
inductive CodexCall where
  | resumeThread (threadId : String)
  | startThread (workingDirectory : String)
  deriving DecidableEq, Repr

/-- Usage object of a Codex turn; individual fields may be absent. -/
structure CodexUsage where
  input_tokens : Option Nat
  output_tokens : Option Nat
  deriving DecidableEq, Repr

/-- Result of an awaited Codex thread run: the thread id read afterwards,
the final response text, and optional usage. -/
structure CodexTurn where
  threadId : Option String
  finalResponse : Option String
  usage : Option CodexUsage
  deriving DecidableEq, Repr

/-- The thread call CodexAdapter.chat makes, given the looked-up handle:
resume when the handle is truthy, else start a thread in
working_dir || process.cwd() (codex-adapter.ts lines 238-242). -/
def CodexAdapter.threadCall (sm : SessionManager) (req : ChatRequest) (cwd : String) (t1 : Nat) :
    CodexCall :=
  let existingThreadId := (SessionManager.get sm req.conversation_id t1).1
  if optTruthy existingThreadId then CodexCall.resumeThread (existingThreadId.getD (""))
  else CodexCall.startThread (jsOrStr req.working_dir cwd)

/-- CodexAdapter.chat (codex-adapter.ts lines 228-277).  The backend
oracle stands for the SDK thread call plus run, mapping the call and the
message to either a thrown error (some m a message-bearing Error, none a
non-Error value) or a completed turn. -/
def CodexAdapter.chat (sm : SessionManager) (req : ChatRequest) (cwd : String)
    (backend : CodexCall → String → Except (Option String) CodexTurn) (t1 t2 : Nat) :
    ChatResponse × SessionManager :=
  let existingThreadId := (SessionManager.get sm req.conversation_id t1).1
  let sm1 := (SessionManager.get sm req.conversation_id t1).2
  match backend (CodexAdapter.threadCall sm req cwd t1) req.message with
  | Except.error e =>
      ({ result := e.getD ("Unknown error from Codex"),
         session_id := jsOrOpt ("") existingThreadId,
         usage := ⟨0, 0⟩,
         is_error := true,
         compacted := none }, sm1)
  | Except.ok turn =>
      let threadId := turn.threadId.getD ("")
      let resultText := turn.finalResponse.getD ("")
      let inputTokens := match turn.usage with | some u => u.input_tokens.getD 0 | none => 0
      let outputTokens := match turn.usage with | some u => u.output_tokens.getD 0 | none => 0
      let sm2 :=
        if threadId ≠ "" then SessionManager.set sm1 req.conversation_id threadId t2
        else sm1
      ({ result := resultText,
         session_id := jsOrOpt threadId existingThreadId,
         usage := ⟨inputTokens, outputTokens⟩,
         is_error := false,
         compacted := none }, sm2)

/-- Backend routing predicate of the multi-backend server
(server lines 135-137): the model selector is codex, or truthy and
starting with the codex- family prefix. -/
def isCodexModel : Option String → Bool
  | some m => m = ("codex") ∨ (m ≠ "" ∧ m.startsWith ("codex-"))
  | none => false

/-- The 400 response body both servers send when conversation_id or
message is missing (server lines 59-67 and 153-161). -/
def emptyFieldsResponse : ChatResponse :=
  { result := "", session_id := "", usage := ⟨0, 0⟩, is_error := true, compacted := none }

/-- Defaulting of working_dir to the server process current directory
when the field is falsy (server lines 69-71 and 163-165). -/
def resolveWorkingDir (body : ChatRequest) (cwd : String) : ChatRequest :=
  if body.working_dir = "" then { body with working_dir := cwd } else body

/-- State of the multi-backend server: one session table per adapter. -/
structure BridgeState where
  claudeSessions : SessionManager
  codexSessions : SessionManager
  deriving DecidableEq, Repr

/-- The POST chat handler of the multi-backend server (lines 150-185):
validate, default the working directory, route by isCodexModel, delegate
to the chosen adapter.  Returns the HTTP status, the response body and
the updated state. -/
def handleChatMulti (st : BridgeState) (body : ChatRequest) (cwd : String)
    (claudeBackend : String → QueryOptions → ClaudeOutcome)
    (codexBackend : CodexCall → String → Except (Option String) CodexTurn)
    (t1 t2 : Nat) : (Nat × ChatResponse) × BridgeState :=
  if body.conversation_id = "" ∨ body.message = "" then
    ((400, emptyFieldsResponse), st)
  else
    let body2 := resolveWorkingDir body cwd
    if isCodexModel body2.model then
      let r := CodexAdapter.chat st.codexSessions body2 cwd codexBackend t1 t2
      ((200, r.1), { st with codexSessions := r.2 })
    else
      let r := ClaudeAdapter.chat st.claudeSessions body2 claudeBackend t1 t2
      ((200, r.1), { st with claudeSessions := r.2 })

/-- The POST chat handler of the single-backend server (lines 56-89):
same validation and defaulting, always the Claude adapter. -/
def handleChatSingle (sm : SessionManager) (body : ChatRequest) (cwd : String)
    (claudeBackend : String → QueryOptions → ClaudeOutcome)
    (t1 t2 : Nat) : (Nat × ChatResponse) × SessionManager :=
  if body.conversation_id = "" ∨ body.message = "" then
    ((400, emptyFieldsResponse), sm)
  else
    let body2 := resolveWorkingDir body cwd
    let r := ClaudeAdapter.chat sm body2 claudeBackend t1 t2
    ((200, r.1), r.2)

/-- Role of a message of the llm package used by the Go client; the
claudecode code only distinguishes the user role. -/
inductive MessageRole where
  | user
  | assistant
  | system
  deriving DecidableEq, Repr

/-- Content segment kind of the llm package; claudecode only tests for
the text kind. -/
inductive ContentType where
  | text
  | toolUse
  | image
  deriving DecidableEq, Repr

/-- One content segment of an llm message: its kind together with its
text (empty for non-text segments). -/
structure Content where
  type : ContentType
  text : String
  deriving DecidableEq, Repr

/-- One message of the conversation history handed to Service.Do. -/
structure Message where
  role : MessageRole
  content : List Content
  deriving DecidableEq, Repr

/-- Inner loop of extractLastUserMessage (claudecode lines 158-162): the
first content segment of text type with non-empty text, if any. -/
def firstNonEmptyText : List Content → Option String
  | [] => none
  | c :: rest =>
    if c.type = ContentType.text ∧ c.text ≠ "" then some c.text else firstNonEmptyText rest

/-- Downward index loop of extractLastUserMessage (claudecode lines
151-165), expressed on the reversed message list: skip non-user messages
and user messages with no non-empty text segment; return the first hit. -/
def extractFromRev : List Message → String
  | [] => ""
  | m :: rest =>
    if m.role = MessageRole.user then
      match firstNonEmptyText m.content with
      | some t => t
      | none => extractFromRev rest
    else extractFromRev rest

/-- extractLastUserMessage of the Go claudecode package. -/
def extractLastUserMessage (messages : List Message) : String :=
  extractFromRev messages.reverse

/-- The JSON body the Go client sends to the bridge chat endpoint
(claudecode lines 28-33).  The model field is a plain Go string; the
empty string is omitted from the JSON. -/
structure bridgeChatRequest where
  conversation_id : String
  message : String
  working_dir : String
  model : String
  deriving DecidableEq, Repr

/-- Request-building stage of Service.Do (claudecode lines 50-67): extract
the last user message, fail with an input error when none is found (before
any network activity), default the conversation id to the literal default,
and build the wire request.  The WorkingDir field is never assigned and so
keeps the Go zero value, the empty string. -/
def Service.doPrepare (model : String) (ctxConversationID : String) (messages : List Message) :
    Except String bridgeChatRequest :=
  let userMessage := extractLastUserMessage messages
  if userMessage = "" then
    Except.error ("claudecode: no user message found in request")
  else
    let conversationID := if ctxConversationID = "" then ("default") else ctxConversationID
    Except.ok
      { conversation_id := conversationID, message := userMessage,
        working_dir := "", model := model }

/-- The decoded bridge response as seen by the Go client (claudecode
lines 36-45): the optional wire compacted flag decodes into a plain Go
bool, absent meaning false. -/
structure bridgeChatResponse where
  result : String
  session_id : String
  input_tokens : Nat
  output_tokens : Nat
  is_error : Bool
  compacted : Bool
  deriving DecidableEq, Repr

/-- JSON decoding of the wire response into the Go client's struct:
field-for-field, with the absent compacted key decoding to false. -/
def decodeWire (r : ChatResponse) : bridgeChatResponse :=
  { result := r.result, session_id := r.session_id,
    input_tokens := r.usage.input_tokens, output_tokens := r.usage.output_tokens,
    is_error := r.is_error, compacted := r.compacted.getD false }

/-- Stop reason of the llm response; Service.Do always uses endTurn. -/
inductive StopReason where
  | endTurn
  | toolUse
  | other
  deriving DecidableEq, Repr

/-- The parts of the llm.Response built by Service.Do that this
development reasons about: the single text segment, the stop reason and
the usage figures. -/
structure LlmResponse where
  text : String
  stopReason : StopReason
  inputTokens : Nat
  outputTokens : Nat
  deriving DecidableEq, Repr

/-- Service.TokenContextWindow (claudecode lines 141-144). -/
def Service.TokenContextWindow : Nat := 200000

/-- Response-interpretation stage of Service.Do (claudecode lines
108-138): a wire error flag becomes a hard failure; otherwise the usage
figures are the wire ones, except that a compacted response reports the
full context window as input and zero output. -/
def Service.doFinish (resp : bridgeChatResponse) : Except String LlmResponse :=
  if resp.is_error then
    Except.error (("claudecode: bridge error: ") ++ resp.result)
  else
    let inputTokens := if resp.compacted then Service.TokenContextWindow else resp.input_tokens
    let outputTokens := if resp.compacted then 0 else resp.output_tokens
    Except.ok
      { text := resp.result, stopReason := StopReason.endTurn,
        inputTokens := inputTokens, outputTokens := outputTokens }

/-! Helper lemmas about the session table. -/

theorem getEntries_fst (l : List (String × SessionInfo)) (id : String) (now : Nat) :
    (getEntries l id now).1 = (findEntry id l).map (fun v => v.sessionId) := by
  induction l with
  | nil => rfl
  | cons e rest ih =>
    obtain ⟨k, v⟩ := e
    by_cases h : k = id
    · simp [getEntries, findEntry, h]
    · simp [getEntries, findEntry, h, ih]

theorem getEntries_snd_of_none (l : List (String × SessionInfo)) (id : String) (now : Nat)
    (h : findEntry id l = none) : (getEntries l id now).2 = l := by
  induction l with
  | nil => rfl
  | cons e rest ih =>
    obtain ⟨k, v⟩ := e
    by_cases hk : k = id
    · simp [findEntry, hk] at h
    · simp [findEntry, hk] at h
      simp [getEntries, hk, ih h]

theorem findEntry_getEntries_self (l : List (String × SessionInfo)) (id : String) (now : Nat)
    (v : SessionInfo) (h : findEntry id l = some v) :
    findEntry id (getEntries l id now).2 = some { v with lastActivity := now } := by
  induction l with
  | nil => simp [findEntry] at h
  | cons e rest ih =>
    obtain ⟨k, w⟩ := e
    by_cases hk : k = id
    · simp [findEntry, hk] at h
      simp [getEntries, findEntry, hk, h]
    · simp [findEntry, hk] at h
      simp [getEntries, findEntry, hk, ih h]

theorem findEntry_getEntries_other (l : List (String × SessionInfo)) (id id2 : String)
    (now : Nat) (h : id2 ≠ id) :
    findEntry id2 (getEntries l id now).2 = findEntry id2 l := by
  induction l with
  | nil => rfl
  | cons e rest ih =>
    obtain ⟨k, w⟩ := e
    by_cases hk : k = id
    · subst hk
      have hne : ¬k = id2 := fun hh => h hh.symm
      simp [getEntries, findEntry, hne]
    · by_cases hk2 : k = id2
      · simp [getEntries, findEntry, hk, hk2, h]
      · simp [getEntries, findEntry, hk, hk2, ih]

theorem cleanupEntries_eq (threshold now : Nat) (l : List (String × SessionInfo)) :
    cleanupEntries threshold now l
      = (l.countP (fun e => decide (e.2.lastActivity + threshold < now)),
         l.filter (fun e => !decide (e.2.lastActivity + threshold < now))) := by
  induction l with
  | nil => rfl
  | cons e rest ih =>
    by_cases h : e.2.lastActivity + threshold < now
    · have h2 : now - e.2.lastActivity > threshold := by omega
      simp [cleanupEntries, ih, h, h2, List.countP_cons, List.filter_cons]
    · have h2 : ¬(now - e.2.lastActivity > threshold) := by omega
      simp [cleanupEntries, ih, h, h2, List.countP_cons, List.filter_cons]

theorem findEntry_filter (p : String × SessionInfo → Bool) (l : List (String × SessionInfo))
    (id : String) (v : SessionInfo) (h : findEntry id l = some v) (hp : p (id, v) = true) :
    findEntry id (l.filter p) = some v := by
  induction l with
  | nil => simp [findEntry] at h
  | cons e rest ih =>
    obtain ⟨k, w⟩ := e
    by_cases hk : k = id
    · subst hk
      simp [findEntry] at h
      subst h
      simp [List.filter_cons, hp, findEntry]
    · simp [findEntry, hk] at h
      by_cases hq : p (k, w) = true
      · simp [List.filter_cons, hq, findEntry, hk, ih h]
      · simp [List.filter_cons, hq, ih h]

theorem findEntry_setEntries_self (l : List (String × SessionInfo)) (id : String)
    (info : SessionInfo) : findEntry id (setEntries l id info) = some info := by
  induction l with
  | nil => simp [setEntries, findEntry]
  | cons e rest ih =>
    obtain ⟨k, w⟩ := e
    by_cases hk : k = id
    · simp [setEntries, findEntry, hk]
    · simp [setEntries, findEntry, hk, ih]

theorem findEntry_setEntries_other (l : List (String × SessionInfo)) (id id2 : String)
    (info : SessionInfo) (h : id2 ≠ id) :
    findEntry id2 (setEntries l id info) = findEntry id2 l := by
  induction l with
  | nil =>
    have hne : ¬id = id2 := fun hh => h hh.symm
    simp [setEntries, findEntry, hne]
  | cons e rest ih =>
    obtain ⟨k, w⟩ := e
    by_cases hk : k = id
    · subst hk
      have hne : ¬k = id2 := fun hh => h hh.symm
      simp [setEntries, findEntry, hne]
    · by_cases hk2 : k = id2
      · simp [setEntries, findEntry, hk, hk2, h]
      · simp [setEntries, findEntry, hk, hk2, ih]

/-! Claim theorems for the session table. -/

/-- C5: for every session-table state and sweep time, the idle sweep with
a given threshold removes exactly the entries whose lastActivity is
strictly older than the threshold relative to the sweep time (that is,
lastActivity + threshold < now), keeps every other entry unchanged and in
order, and returns the number of entries removed; the source's cleanup is
this sweep at the fixed IDLE_TIMEOUT_MS threshold. -/
theorem sweepIdle_removes_exactly_stale (threshold now : Nat) (sm : SessionManager) :
    cleanupEntries threshold now sm.sessions
      = (sm.sessions.countP (fun e => decide (e.2.lastActivity + threshold < now)),
         sm.sessions.filter (fun e => !decide (e.2.lastActivity + threshold < now)))
    ∧ SessionManager.cleanup sm now
      = (sm.sessions.countP (fun e => decide (e.2.lastActivity + IDLE_TIMEOUT_MS < now)),
         ⟨sm.sessions.filter (fun e => !decide (e.2.lastActivity + IDLE_TIMEOUT_MS < now))⟩) := by
  refine ⟨cleanupEntries_eq threshold now sm.sessions, ?_⟩
  unfold SessionManager.cleanup
  rw [cleanupEntries_eq]

/-- C6: get returns absent and leaves the table unchanged when no entry
exists; otherwise it returns the stored handle and refreshes exactly that
entry's lastActivity to the lookup time (read-is-activity), so a sweep at
any time within the idle threshold of the lookup keeps the entry. -/
theorem get_read_is_activity (sm : SessionManager) (id : String) (now : Nat) :
    (findEntry id sm.sessions = none → SessionManager.get sm id now = (none, sm))
    ∧ (∀ info, findEntry id sm.sessions = some info →
        (SessionManager.get sm id now).1 = some info.sessionId
        ∧ findEntry id ((SessionManager.get sm id now).2).sessions
            = some ⟨info.sessionId, now⟩
        ∧ (∀ id2, id2 ≠ id →
            findEntry id2 ((SessionManager.get sm id now).2).sessions
              = findEntry id2 sm.sessions)
        ∧ (∀ t2, t2 ≤ now + IDLE_TIMEOUT_MS →
            findEntry id ((((SessionManager.get sm id now).2).cleanup t2).2).sessions
              = some ⟨info.sessionId, now⟩)) := by
  constructor
  · intro h
    have h1 : (getEntries sm.sessions id now).1 = none := by rw [getEntries_fst, h]; rfl
    have h2 := getEntries_snd_of_none sm.sessions id now h
    simp only [SessionManager.get, h1, h2]
  · intro info h
    have hself := findEntry_getEntries_self sm.sessions id now info h
    refine ⟨?_, hself, ?_, ?_⟩
    · show (getEntries sm.sessions id now).1 = some info.sessionId
      rw [getEntries_fst, h]
      rfl
    · intro id2 hne
      exact findEntry_getEntries_other sm.sessions id id2 now hne
    · intro t2 ht
      unfold SessionManager.cleanup
      rw [cleanupEntries_eq]
      refine findEntry_filter _ _ _ _ hself ?_
      have : ¬(SessionInfo.lastActivity { info with lastActivity := now } + IDLE_TIMEOUT_MS < t2) := by
        simp only []
        omega
      simp [this]

/-- Witness for C6 at a concrete table: a lookup at time 500 of an entry
written at time 100 returns the handle, stamps the entry to 500, and a
sweep at the edge of the idle window keeps it. -/
theorem get_read_is_activity_witness :
    (SessionManager.get ⟨[(("c1"), ⟨("s1"), 100⟩)]⟩ ("c1") 500).1 = some ("s1")
    ∧ findEntry ("c1") ((SessionManager.get ⟨[(("c1"), ⟨("s1"), 100⟩)]⟩ ("c1") 500).2).sessions
        = some ⟨("s1"), 500⟩
    ∧ findEntry ("c1")
        ((((SessionManager.get ⟨[(("c1"), ⟨("s1"), 100⟩)]⟩ ("c1") 500).2).cleanup
            (500 + IDLE_TIMEOUT_MS)).2).sessions
        = some ⟨("s1"), 500⟩ := by
  have h := get_read_is_activity ⟨[(("c1"), ⟨("s1"), 100⟩)]⟩ ("c1") 500
  have h2 := h.2 ⟨("s1"), 100⟩ rfl
  exact ⟨h2.1, h2.2.1, h2.2.2.2 (500 + IDLE_TIMEOUT_MS) (le_refl _)⟩

/-! Claim theorems for the adapters and the servers. -/

/-- C1: any exception raised while starting/resuming the backend or while
consuming its output is converted by the adapter into a structured error
response, never a propagated fault: is_error is true, the text is the
thrown error's message (or the adapter's generic fallback when the thrown
value carries no message), and the session handle is the freshly captured
handle when one was seen before the failure, else the handle looked up at
the start of the call, else empty; the table keeps only the lookup's
activity refresh.  Both adapter variants are covered; the Codex adapter
captures no handle before completion, so its error handle is always the
looked-up one or empty. -/
theorem adapter_error_isolation :
    (∀ (sm : SessionManager) (req : ChatRequest)
       (backend : String → QueryOptions → ClaudeOutcome) (t1 t2 : Nat)
       (msgs : List SDKMessage) (e : Option String),
       backend (ClaudeAdapter.queryInvocation sm req t1).1
           (ClaudeAdapter.queryInvocation sm req t1).2 = ⟨msgs, some e⟩ →
       ClaudeAdapter.chat sm req backend t1 t2
         = ({ result := e.getD ("Unknown error from Claude Code"),
              session_id := jsOrOpt (msgs.foldl processMessage initAcc).sessionId
                (ClaudeAdapter.lookupHandle sm req t1),
              usage := ⟨(msgs.foldl processMessage initAcc).inputTokens,
                        (msgs.foldl processMessage initAcc).outputTokens⟩,
              is_error := true,
              compacted :=
                if (msgs.foldl processMessage initAcc).compacted then some true else none },
            (SessionManager.get sm req.conversation_id t1).2))
    ∧ (∀ (sm : SessionManager) (req : ChatRequest) (cwd : String)
         (backend : CodexCall → String → Except (Option String) CodexTurn) (t1 t2 : Nat)
         (e : Option String),
         backend (CodexAdapter.threadCall sm req cwd t1) req.message = Except.error e →
         CodexAdapter.chat sm req cwd backend t1 t2
           = ({ result := e.getD ("Unknown error from Codex"),
                session_id := jsOrOpt ("") ((SessionManager.get sm req.conversation_id t1).1),
                usage := ⟨0, 0⟩,
                is_error := true,
                compacted := none },
              (SessionManager.get sm req.conversation_id t1).2)) := by
  constructor
  · intro sm req backend t1 t2 msgs e hb
    simp only [ClaudeAdapter.chat, hb]
  · intro sm req cwd backend t1 t2 e hb
    simp only [CodexAdapter.chat, hb]

/-- Witness for C1: with a stored handle s1 and a backend that throws, the
Claude adapter reports the thrown message and the looked-up handle, and
the Codex adapter reports its generic fallback for a message-less throw;
in both cases the table keeps the entry with refreshed activity. -/
theorem adapter_error_isolation_witness :
    ClaudeAdapter.chat ⟨[(("c1"), ⟨("s1"), 0⟩)]⟩ ⟨("c1"), ("hi"), (""), none⟩
        (fun _ _ => ⟨[], some (some ("rate limited"))⟩) 7 8
      = ({ result := ("rate limited"), session_id := ("s1"), usage := ⟨0, 0⟩,
           is_error := true, compacted := none },
         ⟨[(("c1"), ⟨("s1"), 7⟩)]⟩)
    ∧ CodexAdapter.chat ⟨[(("c1"), ⟨("s1"), 0⟩)]⟩ ⟨("c1"), ("hi"), (""), none⟩ ("/w")
        (fun _ _ => Except.error none) 7 8
      = ({ result := ("Unknown error from Codex"), session_id := ("s1"), usage := ⟨0, 0⟩,
           is_error := true, compacted := none },
         ⟨[(("c1"), ⟨("s1"), 7⟩)]⟩) := by
  constructor
  · exact (adapter_error_isolation.1 ⟨[(("c1"), ⟨("s1"), 0⟩)]⟩ ⟨("c1"), ("hi"), (""), none⟩
      (fun _ _ => ⟨[], some (some ("rate limited"))⟩) 7 8 [] (some ("rate limited")) rfl).trans
      (by decide)
  · exact (adapter_error_isolation.2 ⟨[(("c1"), ⟨("s1"), 0⟩)]⟩ ⟨("c1"), ("hi"), (""), none⟩
      ("/w") (fun _ _ => Except.error none) 7 8 none rfl).trans (by decide)

/-- C2: a chat request with a missing (empty) conversation_id or message
is rejected by both server variants with status 400 and the error-flagged
empty response (zero usage, empty result and session id); the session
state is unchanged and the outcome is the same for every backend
behavior, so no adapter chat operation runs. -/
theorem chat_rejects_missing_fields (st : BridgeState) (sm : SessionManager)
    (body : ChatRequest) (cwd : String)
    (claudeBackend : String → QueryOptions → ClaudeOutcome)
    (codexBackend : CodexCall → String → Except (Option String) CodexTurn)
    (t1 t2 : Nat) (h : body.conversation_id = "" ∨ body.message = "") :
    handleChatMulti st body cwd claudeBackend codexBackend t1 t2
      = ((400, emptyFieldsResponse), st)
    ∧ handleChatSingle sm body cwd claudeBackend t1 t2 = ((400, emptyFieldsResponse), sm)
    ∧ emptyFieldsResponse.is_error = true
    ∧ emptyFieldsResponse.usage = ⟨0, 0⟩
    ∧ emptyFieldsResponse.result = ""
    ∧ emptyFieldsResponse.session_id = "" := by
  refine ⟨?_, ?_, rfl, rfl, rfl, rfl⟩
  · unfold handleChatMulti
    rw [if_pos h]
  · unfold handleChatSingle
    rw [if_pos h]

/-- Witness for C2: a request with empty conversation_id is rejected by
the multi-backend server with the 400 empty response, unchanged state. -/
theorem chat_rejects_missing_fields_witness :
    handleChatMulti ⟨⟨[]⟩, ⟨[]⟩⟩ ⟨(""), ("hi"), (""), none⟩ ("/w")
        (fun _ _ => ⟨[], none⟩) (fun _ _ => Except.error none) 0 1
      = ((400, emptyFieldsResponse), ⟨⟨[]⟩, ⟨[]⟩⟩) :=
  (chat_rejects_missing_fields ⟨⟨[]⟩, ⟨[]⟩⟩ ⟨[]⟩ ⟨(""), ("hi"), (""), none⟩ ("/w")
    (fun _ _ => ⟨[], none⟩) (fun _ _ => Except.error none) 0 1 (Or.inl rfl)).1

/-- C8: the model selector of a chat request is used only for routing and
is never forwarded into the backend invocation: two requests identical
except for model give the identical prompt and options for the query
call (the options record has no model field at all), and the whole
adapter interaction is identical. -/
theorem model_selector_not_forwarded (sm : SessionManager) (req : ChatRequest)
    (m1 m2 : Option String) (backend : String → QueryOptions → ClaudeOutcome) (t1 t2 : Nat) :
    ClaudeAdapter.queryInvocation sm { req with model := m1 } t1
      = ClaudeAdapter.queryInvocation sm { req with model := m2 } t1
    ∧ ClaudeAdapter.chat sm { req with model := m1 } backend t1 t2
      = ClaudeAdapter.chat sm { req with model := m2 } backend t1 t2 :=
  ⟨rfl, rfl⟩

/-- C9: a response produced by the Codex adapter never carries the
optional compacted flag, so it decodes on the Go client side with
compacted false, and the client's compaction usage substitution can never
fire for it: a successful Codex response is interpreted with exactly the
wire usage numbers. -/
theorem codex_never_compacted (sm : SessionManager) (req : ChatRequest) (cwd : String)
    (backend : CodexCall → String → Except (Option String) CodexTurn) (t1 t2 : Nat) :
    ((CodexAdapter.chat sm req cwd backend t1 t2).1).compacted = none
    ∧ (decodeWire ((CodexAdapter.chat sm req cwd backend t1 t2).1)).compacted = false
    ∧ (((CodexAdapter.chat sm req cwd backend t1 t2).1).is_error = false →
        Service.doFinish (decodeWire ((CodexAdapter.chat sm req cwd backend t1 t2).1))
          = Except.ok
              { text := ((CodexAdapter.chat sm req cwd backend t1 t2).1).result,
                stopReason := StopReason.endTurn,
                inputTokens := ((CodexAdapter.chat sm req cwd backend t1 t2).1).usage.input_tokens,
                outputTokens :=
                  ((CodexAdapter.chat sm req cwd backend t1 t2).1).usage.output_tokens }) := by
  have hc : ((CodexAdapter.chat sm req cwd backend t1 t2).1).compacted = none := by
    simp only [CodexAdapter.chat]
    cases backend (CodexAdapter.threadCall sm req cwd t1) req.message <;> rfl
  refine ⟨hc, ?_, ?_⟩
  · simp [decodeWire, hc]
  · intro he
    simp [Service.doFinish, decodeWire, hc, he]

/-- Witness for C9: a successful Codex turn with usage 3 and 4 is
interpreted by the client with exactly those wire usage numbers. -/
theorem codex_never_compacted_witness :
    Service.doFinish (decodeWire ((CodexAdapter.chat ⟨[]⟩ ⟨("c1"), ("hi"), ("/w"), none⟩ ("/w")
        (fun _ _ => Except.ok ⟨some ("t1"), some ("ok"), some ⟨some 3, some 4⟩⟩) 0 1).1))
      = Except.ok
          { text := ("ok"), stopReason := StopReason.endTurn, inputTokens := 3,
            outputTokens := 4 } := by
  have h := (codex_never_compacted ⟨[]⟩ ⟨("c1"), ("hi"), ("/w"), none⟩ ("/w")
      (fun _ _ => Except.ok ⟨some ("t1"), some ("ok"), some ⟨some 3, some 4⟩⟩) 0 1).2.2
      (by decide)
  exact h.trans rfl

/-- C4: for a successful (non-error) bridge response the Go client's
reported usage is substituted when the compacted flag is set — input
tokens become the configured context window size (200000) and output
tokens zero, regardless of the wire usage numbers — and is exactly the
wire usage when the flag is not set. -/
theorem compaction_usage_substitution (resp : bridgeChatResponse)
    (h : resp.is_error = false) :
    Service.TokenContextWindow = 200000
    ∧ (resp.compacted = true →
        Service.doFinish resp
          = Except.ok
              { text := resp.result, stopReason := StopReason.endTurn,
                inputTokens := 200000, outputTokens := 0 })
    ∧ (resp.compacted = false →
        Service.doFinish resp
          = Except.ok
              { text := resp.result, stopReason := StopReason.endTurn,
                inputTokens := resp.input_tokens, outputTokens := resp.output_tokens }) := by
  refine ⟨rfl, ?_, ?_⟩
  · intro hcomp
    simp [Service.doFinish, h, hcomp, Service.TokenContextWindow]
  · intro hcomp
    simp [Service.doFinish, h, hcomp]

/-- Witness for C4: a compacted success response carrying wire usage 123
and 456 is reported as 200000 input tokens and 0 output tokens. -/
theorem compaction_usage_substitution_witness :
    Service.doFinish ⟨("Hi"), ("s1"), 123, 456, false, true⟩
      = Except.ok
          { text := ("Hi"), stopReason := StopReason.endTurn,
            inputTokens := 200000, outputTokens := 0 } :=
  (compaction_usage_substitution ⟨("Hi"), ("s1"), 123, 456, false, true⟩ rfl).2.1 rfl

/-- C10: the Go client never populates the working_dir field of the wire
request (the struct field keeps the Go zero value), and the bridge
substitutes its own process current directory for every request whose
working_dir is empty. -/
theorem client_never_sets_working_dir :
    (∀ (model ctxID : String) (messages : List Message) (r : bridgeChatRequest),
       Service.doPrepare model ctxID messages = Except.ok r → r.working_dir = "")
    ∧ (∀ (body : ChatRequest) (cwd : String), body.working_dir = "" →
        resolveWorkingDir body cwd = { body with working_dir := cwd }) := by
  constructor
  · intro model ctxID messages r h
    simp only [Service.doPrepare] at h
    by_cases he : extractLastUserMessage messages = ""
    · rw [if_pos he] at h
      exact Except.noConfusion h
    · rw [if_neg he] at h
      injection h with h2
      rw [← h2]
  · intro body cwd h
    unfold resolveWorkingDir
    rw [if_pos h]

/-- Witness for C10: the request the client builds for a one-message
history has an empty working_dir, and the bridge's defaulting then
substitutes the server process current directory. -/
theorem client_never_sets_working_dir_witness :
    Service.doPrepare ("claude-code") ("conv9")
        [⟨MessageRole.user, [⟨ContentType.text, ("Hello")⟩]⟩]
      = Except.ok ⟨("conv9"), ("Hello"), (""), ("claude-code")⟩
    ∧ (⟨("conv9"), ("Hello"), (""), ("claude-code")⟩ : bridgeChatRequest).working_dir = ""
    ∧ resolveWorkingDir ⟨("c1"), ("hi"), (""), none⟩ ("/srv")
        = ⟨("c1"), ("hi"), ("/srv"), none⟩ := by
  refine ⟨rfl, ?_, ?_⟩
  · exact client_never_sets_working_dir.1 ("claude-code") ("conv9")
      [⟨MessageRole.user, [⟨ContentType.text, ("Hello")⟩]⟩] _ rfl
  · exact (client_never_sets_working_dir.2 ⟨("c1"), ("hi"), (""), none⟩ ("/srv") rfl).trans rfl

/-! Helper development for the prompt-extraction claim. -/

/-- The contribution of one history message to prompt extraction: its
first non-empty text segment when it is user-authored, none otherwise. -/
def userMessageText (m : Message) : Option String :=
  if m.role = MessageRole.user then firstNonEmptyText m.content else none

theorem firstNonEmptyText_ne_empty (l : List Content) (t : String)
    (h : firstNonEmptyText l = some t) : t ≠ "" := by
  induction l with
  | nil => exact absurd h (by simp [firstNonEmptyText])
  | cons c rest ih =>
    by_cases hc : c.type = ContentType.text ∧ c.text ≠ ""
    · simp only [firstNonEmptyText, if_pos hc] at h
      injection h with h2
      subst h2
      exact hc.2
    · simp only [firstNonEmptyText, if_neg hc] at h
      exact ih h

theorem userMessageText_ne_empty (m : Message) (t : String)
    (h : userMessageText m = some t) : t ≠ "" := by
  unfold userMessageText at h
  by_cases hr : m.role = MessageRole.user
  · rw [if_pos hr] at h
    exact firstNonEmptyText_ne_empty m.content t h
  · rw [if_neg hr] at h
    exact Option.noConfusion h

theorem findSome?_userMessageText_ne_empty (l : List Message) (t : String)
    (h : l.findSome? userMessageText = some t) : t ≠ "" := by
  induction l with
  | nil => exact absurd h (by simp)
  | cons m rest ih =>
    cases hm : userMessageText m with
    | some s =>
      rw [List.findSome?_cons, hm] at h
      injection h with h2
      subst h2
      exact userMessageText_ne_empty m s hm
    | none =>
      rw [List.findSome?_cons, hm] at h
      exact ih h

theorem extractFromRev_eq (l : List Message) :
    extractFromRev l = (l.findSome? userMessageText).getD ("") := by
  induction l with
  | nil => rfl
  | cons m rest ih =>
    by_cases hr : m.role = MessageRole.user
    · cases hft : firstNonEmptyText m.content with
      | some t =>
        simp [extractFromRev, userMessageText, hr, hft, List.findSome?_cons]
      | none =>
        simp [extractFromRev, userMessageText, hr, hft, List.findSome?_cons, ih]
    · simp [extractFromRev, userMessageText, hr, List.findSome?_cons, ih]

/-- Counterexample to C7 as stated: in this one-message history the most
recent (and only) message is authored by the human role, yet the client
fails with its input error instead of using that message's (empty) text
as the prompt — the code requires a non-empty text segment, not merely a
user-authored message. -/
theorem extract_last_user_cex :
    (∃ m ∈ [(⟨MessageRole.user, [⟨ContentType.text, ("")⟩]⟩ : Message)],
        m.role = MessageRole.user)
    ∧ Service.doPrepare ("claude-code") ("c1")
        [⟨MessageRole.user, [⟨ContentType.text, ("")⟩]⟩]
      = Except.error ("claudecode: no user message found in request") :=
  ⟨by decide, rfl⟩

/-- C7 amended: the client extracts as the prompt the first non-empty
text segment of the most recent user-authored message containing one
(later user messages with no non-empty text segment are skipped); when no
user message contains a non-empty text segment it fails with the input
error at the request-building stage, before any network activity. -/
theorem extract_last_user_message_spec (model ctxID : String) (messages : List Message) :
    extractLastUserMessage messages
      = (messages.reverse.findSome? userMessageText).getD ("")
    ∧ (messages.reverse.findSome? userMessageText = none →
        Service.doPrepare model ctxID messages
          = Except.error ("claudecode: no user message found in request"))
    ∧ (∀ t, messages.reverse.findSome? userMessageText = some t →
        t ≠ ""
        ∧ Service.doPrepare model ctxID messages
            = Except.ok
                { conversation_id := if ctxID = "" then ("default") else ctxID,
                  message := t, working_dir := "", model := model }) := by
  have he : extractLastUserMessage messages
      = (messages.reverse.findSome? userMessageText).getD ("") :=
    extractFromRev_eq messages.reverse
  refine ⟨he, ?_, ?_⟩
  · intro h
    have h0 : extractLastUserMessage messages = "" := by rw [he, h]; rfl
    simp [Service.doPrepare, h0]
  · intro t ht
    have hne := findSome?_userMessageText_ne_empty messages.reverse t ht
    have hext : extractLastUserMessage messages = t := by rw [he, ht]; rfl
    refine ⟨hne, ?_⟩
    simp only [Service.doPrepare, hext]
    rw [if_neg hne]

/-- Witness for C7 amended: a history whose last user message has only an
empty text segment falls back to the earlier user message's text. -/
theorem extract_last_user_message_spec_witness :
    Service.doPrepare ("claude-code") ("")
        [⟨MessageRole.user, [⟨ContentType.text, ("first")⟩]⟩,
         ⟨MessageRole.assistant, [⟨ContentType.text, ("reply")⟩]⟩,
         ⟨MessageRole.user, [⟨ContentType.text, ("")⟩]⟩]
      = Except.ok ⟨("default"), ("first"), (""), ("claude-code")⟩ := by
  have h := (extract_last_user_message_spec ("claude-code") ("")
      [⟨MessageRole.user, [⟨ContentType.text, ("first")⟩]⟩,
       ⟨MessageRole.assistant, [⟨ContentType.text, ("reply")⟩]⟩,
       ⟨MessageRole.user, [⟨ContentType.text, ("")⟩]⟩]).2.2 ("first") rfl
  exact h.2.trans rfl

/-! Helper development for the session-establishment claim. -/

/-- Invariant: every entry of the table carries a non-empty handle. -/
def handlesNonEmpty (sm : SessionManager) : Prop :=
  ∀ e ∈ sm.sessions, e.2.sessionId ≠ ""

theorem handlesNonEmpty_getEntries (id : String) (now : Nat) :
    ∀ l : List (String × SessionInfo), (∀ e ∈ l, e.2.sessionId ≠ "") →
      ∀ e ∈ (getEntries l id now).2, e.2.sessionId ≠ ""
  | [], _, e, he => by simp [getEntries] at he
  | (k, v) :: rest, h, e, he => by
    by_cases hk : k = id
    · simp [getEntries, hk] at he
      rcases he with rfl | he2
      · simpa using h (k, v) (List.mem_cons_self _ _)
      · exact h e (List.mem_cons_of_mem _ he2)
    · simp [getEntries, hk] at he
      rcases he with rfl | he2
      · exact h (k, v) (List.mem_cons_self _ _)
      · exact handlesNonEmpty_getEntries id now rest
          (fun e2 h2 => h e2 (List.mem_cons_of_mem _ h2)) e he2

theorem handlesNonEmpty_setEntries (id : String) (info : SessionInfo)
    (hi : info.sessionId ≠ "") :
    ∀ l : List (String × SessionInfo), (∀ e ∈ l, e.2.sessionId ≠ "") →
      ∀ e ∈ setEntries l id info, e.2.sessionId ≠ ""
  | [], _, e, he => by
    simp [setEntries] at he
    rw [he]
    exact hi
  | (k, v) :: rest, h, e, he => by
    by_cases hk : k = id
    · simp [setEntries, hk] at he
      rcases he with rfl | he2
      · exact hi
      · exact h e (List.mem_cons_of_mem _ he2)
    · simp [setEntries, hk] at he
      rcases he with rfl | he2
      · exact h (k, v) (List.mem_cons_self _ _)
      · exact handlesNonEmpty_setEntries id info hi rest
          (fun e2 h2 => h e2 (List.mem_cons_of_mem _ h2)) e he2

theorem handlesNonEmpty_get (sm : SessionManager) (id : String) (now : Nat)
    (h : handlesNonEmpty sm) : handlesNonEmpty (SessionManager.get sm id now).2 :=
  fun e he => handlesNonEmpty_getEntries id now sm.sessions h e he

theorem handlesNonEmpty_set (sm : SessionManager) (id sid : String) (now : Nat)
    (h : handlesNonEmpty sm) (hs : sid ≠ "") :
    handlesNonEmpty (SessionManager.set sm id sid now) :=
  fun e he => handlesNonEmpty_setEntries id ⟨sid, now⟩ hs sm.sessions h e he

/-- Counterexample to C3 as stated: for a conversation id never seen
before, get does return absent, but a successful chat call during which
the backend reported no session handle (here: an empty, normally
completed stream) establishes no SessionEntry at all — the first
successful chat call does not unconditionally create one. -/
theorem first_chat_establishes_entry_cex :
    (SessionManager.get ⟨[]⟩ ("c9") 0).1 = none
    ∧ ((ClaudeAdapter.chat ⟨[]⟩ ⟨("c9"), ("hi"), (""), none⟩
          (fun _ _ => ⟨[], none⟩) 0 1).1).is_error = false
    ∧ findEntry ("c9")
        ((ClaudeAdapter.chat ⟨[]⟩ ⟨("c9"), ("hi"), (""), none⟩
            (fun _ _ => ⟨[], none⟩) 0 1).2).sessions = none :=
  ⟨rfl, rfl, rfl⟩

/-- C3 amended: for every conversation id never seen before, get returns
absent; a successful chat call establishes a SessionEntry exactly when
the backend reported a non-empty session handle during the call, and the
entry then carries that (non-empty) handle; and no adapter operation ever
creates an entry with an empty handle — the non-empty-handle invariant is
preserved by both adapters' chat over any backend behavior. -/
theorem first_chat_establishes_entry :
    (∀ (sm : SessionManager) (id : String) (now : Nat),
       findEntry id sm.sessions = none → (SessionManager.get sm id now).1 = none)
    ∧ (∀ (sm : SessionManager) (req : ChatRequest) (msgs : List SDKMessage) (t1 t2 : Nat),
        ((ClaudeAdapter.chat sm req (fun _ _ => ⟨msgs, none⟩) t1 t2).1).is_error = false
        ∧ ((msgs.foldl processMessage initAcc).sessionId ≠ "" →
            findEntry req.conversation_id
                ((ClaudeAdapter.chat sm req (fun _ _ => ⟨msgs, none⟩) t1 t2).2).sessions
              = some ⟨(msgs.foldl processMessage initAcc).sessionId, t2⟩)
        ∧ ((msgs.foldl processMessage initAcc).sessionId = "" →
            (ClaudeAdapter.chat sm req (fun _ _ => ⟨msgs, none⟩) t1 t2).2
              = (SessionManager.get sm req.conversation_id t1).2))
    ∧ (∀ (sm : SessionManager) (req : ChatRequest)
         (backend : String → QueryOptions → ClaudeOutcome) (t1 t2 : Nat),
        handlesNonEmpty sm → handlesNonEmpty (ClaudeAdapter.chat sm req backend t1 t2).2)
    ∧ (∀ (sm : SessionManager) (req : ChatRequest) (cwd : String)
         (backend : CodexCall → String → Except (Option String) CodexTurn) (t1 t2 : Nat),
        handlesNonEmpty sm → handlesNonEmpty (CodexAdapter.chat sm req cwd backend t1 t2).2) := by
  refine ⟨?_, ?_, ?_, ?_⟩
  · intro sm id now h
    show (getEntries sm.sessions id now).1 = none
    rw [getEntries_fst, h]
    rfl
  · intro sm req msgs t1 t2
    refine ⟨rfl, ?_, ?_⟩
    · intro hs
      have h2 : (ClaudeAdapter.chat sm req (fun _ _ => ⟨msgs, none⟩) t1 t2).2
          = SessionManager.set (SessionManager.get sm req.conversation_id t1).2
              req.conversation_id (msgs.foldl processMessage initAcc).sessionId t2 := by
        simp only [ClaudeAdapter.chat]
        rw [if_pos hs]
      rw [h2]
      exact findEntry_setEntries_self _ _ _
    · intro hs
      have hs2 : ¬(msgs.foldl processMessage initAcc).sessionId ≠ "" := fun hne => hne hs
      simp only [ClaudeAdapter.chat]
      rw [if_neg hs2]
  · intro sm req backend t1 t2 h
    have h1 := handlesNonEmpty_get sm req.conversation_id t1 h
    rcases hout : backend (ClaudeAdapter.queryInvocation sm req t1).1
        (ClaudeAdapter.queryInvocation sm req t1).2 with ⟨msgs, thrown⟩
    simp only [ClaudeAdapter.chat, hout]
    cases thrown with
    | some e => exact h1
    | none =>
      by_cases hs : (msgs.foldl processMessage initAcc).sessionId ≠ ""
      · rw [if_pos hs]
        exact handlesNonEmpty_set _ _ _ _ h1 hs
      · rw [if_neg hs]
        exact h1
  · intro sm req cwd backend t1 t2 h
    have h1 := handlesNonEmpty_get sm req.conversation_id t1 h
    rcases hout : backend (CodexAdapter.threadCall sm req cwd t1) req.message with e | turn
    · simp only [CodexAdapter.chat, hout]
      exact h1
    · simp only [CodexAdapter.chat, hout]
      by_cases hs : turn.threadId.getD ("") ≠ ""
      · rw [if_pos hs]
        exact handlesNonEmpty_set _ _ _ _ h1 hs
      · rw [if_neg hs]
        exact h1

/-- Witness for C3 amended: on a fresh table, a successful chat whose
stream carries an init message with handle s1 creates the entry with that
non-empty handle, and the invariant holds afterwards. -/
theorem first_chat_establishes_entry_witness :
    (SessionManager.get ⟨[]⟩ ("c1") 0).1 = none
    ∧ findEntry ("c1")
        ((ClaudeAdapter.chat ⟨[]⟩ ⟨("c1"), ("hi"), (""), none⟩
            (fun _ _ => ⟨[⟨("system"), some ("init"), some ("s1"), none, none, none⟩], none⟩)
            0 3).2).sessions
        = some ⟨("s1"), 3⟩
    ∧ handlesNonEmpty
        (ClaudeAdapter.chat ⟨[]⟩ ⟨("c1"), ("hi"), (""), none⟩
          (fun _ _ => ⟨[⟨("system"), some ("init"), some ("s1"), none, none, none⟩], none⟩)
          0 3).2 := by
  have h := first_chat_establishes_entry
  refine ⟨h.1 ⟨[]⟩ ("c1") 0 rfl, ?_, ?_⟩
  · have h2 := (h.2.1 ⟨[]⟩ ⟨("c1"), ("hi"), (""), none⟩
        [⟨("system"), some ("init"), some ("s1"), none, none, none⟩] 0 3).2.1 (by decide)
    exact h2.trans (by decide)
  · exact h.2.2.1 ⟨[]⟩ ⟨("c1"), ("hi"), (""), none⟩
      (fun _ _ => ⟨[⟨("system"), some ("init"), some ("s1"), none, none, none⟩], none⟩) 0 3
      (fun e he => absurd he (List.not_mem_nil e))

end Shelley

